import Mathlib

/-!
Shallow embedding of `scripts/add-participants.py` (bbash repository).

Python strings are modelled as `List Char` (`PyStr`); the two remote
collaborators (campaign registry and GitHub user lookup) are modelled as an
environment of response functions, and the script's side effects on them are
recorded as call traces in the run state.
-/

namespace AddParticipants

/-- Python `str` modelled as a list of unicode code points. -/
abbrev PyStr := List Char

/-- Conversion of a Lean string literal to the `PyStr` model. -/
def pstr (s : String) : PyStr := s.data

/-- Python `needle in hay` check that `hay` begins with `needle`. -/
def beginsWith : PyStr → PyStr → Bool
  | _, [] => true
  | [], _ :: _ => false
  | a :: as, b :: bs => a == b && beginsWith as bs

/-- Python substring containment `needle in hay` (contiguous occurrence). -/
def hasSub (needle : PyStr) : PyStr → Bool
  | [] => beginsWith [] needle
  | c :: t => beginsWith (c :: t) needle || hasSub needle t

/-- Python `os.path.basename`: the part of the string after the last slash. -/
def basename (s : PyStr) : PyStr :=
  (s.reverse.takeWhile (fun c => c != '/')).reverse

/-- Python `str.lower` on the basic latin range, code point by code point. -/
def lower (s : PyStr) : PyStr := s.map Char.toLower

/-- Script constant `CAMPAIGN_NAME` (line 11). -/
def CAMPAIGN_NAME : PyStr := pstr "cncf-2021-10-11"

/-- Script constant `default_gh_username` (line 17). -/
def default_gh_username : PyStr := pstr "set_your_github_username_env"

/-- Marker substring used by the URL check on line 70. -/
def ghMarker : PyStr := pstr "github.com/"

/-- One CSV row: the `Git Handle`, `Full Name` and `Note` columns. -/
structure Participant where
  githubId : PyStr
  displayName : PyStr
  note : PyStr
deriving Repr, DecidableEq

/-- Handle normalization, lines 70-74 of the script: if the raw value
contains `github.com/` replace it by its final path segment, then
lower-case the result. -/
def normalizeHandle (raw : PyStr) : PyStr :=
  lower (if hasSub ghMarker raw then basename raw else raw)

/-- JSON payload of the `PUT /participant/add` call (lines 76-81). -/
structure Send where
  campaignName : PyStr
  GithubName : PyStr
  DisplayName : PyStr
deriving Repr, DecidableEq

/-- Responses of the external collaborators and the environment variables:
`detailStatus` is the status of `GET /participant/detail/{h}`, `ghStatus`
the status of `GET https://api.github.com/users/{u}`, `addStatus` the
status of `PUT /participant/add`, and `username` the `GITHUB_USERNAME`
environment variable. -/
structure Env where
  detailStatus : PyStr → Nat
  ghStatus : PyStr → Nat
  addStatus : Send → Nat
  username : PyStr

/-- Mutable state of the main loop (lines 49-57), together with the traces
of the calls issued to the collaborators. -/
structure RunState where
  count_added : Nat
  count_skipped : Nat
  count_error : Nat
  exitCode : Nat
  summary_error_likely_email : List PyStr
  summary_error_bad_username : List PyStr
  summary_error_short_username : List PyStr
  summary_error_nonexistent_username : List PyStr
  summary_error_message : List PyStr
  detailCalls : List PyStr
  ghCalls : List PyStr
  addCalls : List Send
deriving Repr, DecidableEq

/-- Initial loop state (lines 49-57): all counters zero, all lists empty. -/
def initState : RunState :=
  { count_added := 0
    count_skipped := 0
    count_error := 0
    exitCode := 0
    summary_error_likely_email := []
    summary_error_bad_username := []
    summary_error_short_username := []
    summary_error_nonexistent_username := []
    summary_error_message := []
    detailCalls := []
    ghCalls := []
    addCalls := [] }

/-- Python `repr` of a row dictionary, with the three modelled columns. -/
def reprP (p : Participant) : PyStr :=
  pstr "\x7b\x27Git Handle\x27: \x27" ++ p.githubId ++
    pstr "\x27, \x27Full Name\x27: \x27" ++ p.displayName ++
    pstr "\x27, \x27Note\x27: \x27" ++ p.note ++ pstr "\x27\x7d"

/-- Message appended on the email-shaped check (line 62). -/
def msgLikelyEmail (p : Participant) : PyStr :=
  pstr "invalid Github ID detected. Skipping participant. participant: " ++ reprP p

/-- Message appended on the flagged-invalid check (line 90). -/
def msgBadUsername (p : Participant) : PyStr :=
  pstr "flagged as not a valid Github ID. Skipping participant. participant: " ++ reprP p

/-- Message appended on the length check (line 99). -/
def msgShortUsername (p : Participant) : PyStr :=
  pstr "username too short. participant: " ++ reprP p ++
    pstr " Check for \x27n/a\x27 in data"

/-- Message appended on a failed GitHub lookup (line 110). -/
def msgNonexistent (p : Participant) : PyStr :=
  pstr "non-existent github id, error. participant: " ++ reprP p

/-- Configuration hint appended when the GitHub username is unset (line 108). -/
def msgConfigHint : PyStr :=
  pstr "\n*** did you forget to set the GITHUB_USERNAME environment variable? ***"

/-- Message appended on a failed create call (line 121). -/
def msgAddError (status : Nat) (p : Participant) : PyStr :=
  pstr "\n*** error adding participant. status code: " ++ (Nat.repr status).data ++
    pstr ", participant: " ++ reprP p ++ pstr " ***\n"

/-- Processing of one row of the CSV: the body of the `for` loop on
lines 58-125 of the script, as a state transformer. -/
def processOne (env : Env) (st : RunState) (p : Participant) : RunState :=
  if hasSub (pstr "@") p.githubId then
    { st with
      summary_error_likely_email := st.summary_error_likely_email ++ [msgLikelyEmail p]
      count_error := st.count_error + 1
      exitCode := 1 }
  else
    let gid := normalizeHandle p.githubId
    let p1 : Participant := { p with githubId := gid }
    let send : Send :=
      { campaignName := CAMPAIGN_NAME, GithubName := gid, DisplayName := p.displayName }
    let st1 := { st with detailCalls := st.detailCalls ++ [gid] }
    if env.detailStatus gid == 200 then
      { st1 with count_skipped := st1.count_skipped + 1 }
    else if p.note == pstr "not a valid id" then
      { st1 with
        summary_error_bad_username := st1.summary_error_bad_username ++ [msgBadUsername p1]
        count_error := st1.count_error + 1
        exitCode := 1 }
    else if gid.length ≤ 3 then
      { st1 with
        summary_error_short_username := st1.summary_error_short_username ++ [msgShortUsername p1]
        count_error := st1.count_error + 1
        exitCode := 1 }
    else
      let st2 := { st1 with ghCalls := st1.ghCalls ++ [gid] }
      if env.ghStatus gid != 200 then
        let st3 :=
          if env.username == default_gh_username then
            { st2 with summary_error_message := st2.summary_error_message ++ [msgConfigHint] }
          else st2
        { st3 with
          summary_error_nonexistent_username :=
            st3.summary_error_nonexistent_username ++ [msgNonexistent p1]
          count_error := st3.count_error + 1
          exitCode := 1 }
      else
        let st4 := { st2 with addCalls := st2.addCalls ++ [send] }
        let status := env.addStatus send
        if status != 200 && status != 201 then
          { st4 with
            summary_error_message := st4.summary_error_message ++ [msgAddError status p1]
            count_error := st4.count_error + 1 }
        else
          { st4 with count_added := st4.count_added + 1 }

/-- The whole run over a list of rows (the `for` loop, lines 58-125). -/
def reconcile (env : Env) (rows : List Participant) : RunState :=
  rows.foldl (processOne env) initState

/-- A record fails one of the validation checks (the checks before the
final create call) in the given environment: email-shaped raw handle, or —
once the registry lookup is not 200 — flagged invalid, normalized handle
too short, or failing the GitHub user lookup. -/
def failsValidation (env : Env) (p : Participant) : Bool :=
  hasSub (pstr "@") p.githubId ||
    (env.detailStatus (normalizeHandle p.githubId) != 200 &&
      (p.note == pstr "not a valid id" ||
        decide ((normalizeHandle p.githubId).length ≤ 3) ||
        env.ghStatus (normalizeHandle p.githubId) != 200))

/-- Total of the three per-record counters of a state. -/
def sumCounts (st : RunState) : Nat :=
  st.count_added + st.count_skipped + st.count_error

/-! Concrete fixtures used by counterexamples and witnesses. -/

/-- Environment in which no handle exists, GitHub verification succeeds,
and the create call fails with status 500. -/
def envAddFails : Env :=
  { detailStatus := fun _ => 404
    ghStatus := fun _ => 200
    addStatus := fun _ => 500
    username := pstr "operator" }

/-- Row with a plain valid handle. -/
def rowOcto : Participant :=
  { githubId := pstr "octocat", displayName := pstr "The Octocat", note := [] }

/-- Environment for the five-record batch: `alice` already registered,
`carol` unknown to GitHub, creates succeed with 201. -/
def envBatch : Env :=
  { detailStatus := fun h => if h == pstr "alice" then 200 else 404
    ghStatus := fun h => if h == pstr "carol" then 404 else 200
    addStatus := fun _ => 201
    username := pstr "operator" }

/-- Batch row: already exists in the registry. -/
def rowAlice : Participant :=
  { githubId := pstr "Alice", displayName := pstr "Alice A", note := [] }

/-- Batch row: email-shaped handle. -/
def rowBob : Participant :=
  { githubId := pstr "bob@example.com", displayName := pstr "Bob B", note := [] }

/-- Batch row: fails GitHub identity verification. -/
def rowCarol : Participant :=
  { githubId := pstr "Carol", displayName := pstr "Carol C", note := [] }

/-- Batch row: passes all checks, created. -/
def rowDave : Participant :=
  { githubId := pstr "daveX", displayName := pstr "Dave D", note := [] }

/-- Batch row: passes all checks, created. -/
def rowErin : Participant :=
  { githubId := pstr "erin5", displayName := pstr "Erin E", note := [] }

/-- The five-record batch of the spec's worked example. -/
def rowsBatch : List Participant :=
  [rowAlice, rowBob, rowCarol, rowDave, rowErin]

/-- Create payload issued for `rowDave` in `envBatch`. -/
def sendDave : Send :=
  { campaignName := CAMPAIGN_NAME, GithubName := pstr "davex", DisplayName := pstr "Dave D" }

/-- Row with a placeholder handle of length 3. -/
def rowShort : Participant :=
  { githubId := pstr "n/a", displayName := pstr "Nora N", note := [] }

/-- Row flagged invalid in the note column while its handle exists. -/
def rowFlagged : Participant :=
  { githubId := pstr "Alice", displayName := pstr "Alice A", note := pstr "not a valid id" }

/-! Helper lemmas about characters and strings. -/

theorem toNat_char_ofNat (n : Nat) (h : n.isValidChar) : (Char.ofNat n).toNat = n := by
  unfold Char.ofNat
  rw [dif_pos h]
  rfl

theorem toNat_toLower (c : Char) :
    c.toLower.toNat = if 65 ≤ c.toNat ∧ c.toNat ≤ 90 then c.toNat + 32 else c.toNat := by
  by_cases h : 65 ≤ c.toNat ∧ c.toNat ≤ 90
  · have hv : (c.toNat + 32).isValidChar := Or.inl (by omega)
    simp only [Char.toLower, ge_iff_le, h, and_self, if_true, toNat_char_ofNat _ hv]
  · simp only [Char.toLower, ge_iff_le, if_neg h]

theorem toLower_of_not_upper {c : Char} (h : ¬(65 ≤ c.toNat ∧ c.toNat ≤ 90)) :
    c.toLower = c := by
  simp only [Char.toLower, ge_iff_le, if_neg h]

theorem toLower_toLower (c : Char) : c.toLower.toLower = c.toLower := by
  apply toLower_of_not_upper
  have h1 := toNat_toLower c
  by_cases h : 65 ≤ c.toNat ∧ c.toNat ≤ 90
  · rw [if_pos h] at h1
    omega
  · rw [if_neg h] at h1
    omega

theorem eq_slash_of_toLower_eq_slash {c : Char} (h : c.toLower = '/') : c = '/' := by
  have ht : c.toLower.toNat = 47 := by rw [h]; rfl
  rw [toNat_toLower] at ht
  by_cases hc : 65 ≤ c.toNat ∧ c.toNat ≤ 90
  · rw [if_pos hc] at ht
    omega
  · rw [if_neg hc] at ht
    have h2 := Char.ofNat_toNat c
    rw [ht] at h2
    rw [← h2]

theorem lower_lower (s : PyStr) : lower (lower s) = lower s := by
  induction s with
  | nil => rfl
  | cons c t ih =>
    simp only [lower, List.map_cons, List.map_map] at ih ⊢
    rw [toLower_toLower]
    exact congrArg _ ih

theorem slash_not_mem_basename (s : PyStr) : '/' ∉ basename s := by
  intro h
  rw [basename, List.mem_reverse] at h
  have h2 := List.mem_takeWhile_imp h
  simp at h2

theorem slash_not_mem_lower {s : PyStr} (h : '/' ∉ s) : '/' ∉ lower s := by
  intro hm
  rw [lower, List.mem_map] at hm
  obtain ⟨c, hc, hcl⟩ := hm
  exact h (eq_slash_of_toLower_eq_slash hcl ▸ hc)

theorem mem_of_beginsWith {hay needle : PyStr} {c : Char}
    (h : beginsWith hay needle = true) (hc : c ∈ needle) : c ∈ hay := by
  induction needle generalizing hay with
  | nil => cases hc
  | cons b bs ih =>
    cases hay with
    | nil => simp [beginsWith] at h
    | cons a as =>
      simp only [beginsWith, Bool.and_eq_true, beq_iff_eq] at h
      cases hc with
      | head => exact h.1 ▸ List.mem_cons_self a as
      | tail _ hmem => exact List.mem_cons_of_mem a (ih h.2 hmem)

theorem mem_of_hasSub {needle hay : PyStr} {c : Char}
    (h : hasSub needle hay = true) (hc : c ∈ needle) : c ∈ hay := by
  induction hay with
  | nil =>
    rw [hasSub] at h
    cases needle with
    | nil => cases hc
    | cons b bs => simp [beginsWith] at h
  | cons a as ih =>
    rw [hasSub, Bool.or_eq_true] at h
    cases h with
    | inl h => exact mem_of_beginsWith h hc
    | inr h => exact List.mem_cons_of_mem a (ih h)

theorem hasSub_ghMarker_eq_false {hay : PyStr} (h : '/' ∉ hay) :
    hasSub ghMarker hay = false := by
  by_contra hne
  rw [Bool.not_eq_false] at hne
  exact h (mem_of_hasSub hne (by decide))

theorem normalizeHandle_pos {s : PyStr} (h : hasSub ghMarker s = true) :
    normalizeHandle s = lower (basename s) := by
  simp [normalizeHandle, h]

theorem normalizeHandle_neg {s : PyStr} (h : hasSub ghMarker s = false) :
    normalizeHandle s = lower s := by
  simp [normalizeHandle, h]

/-! Claim theorems about normalization. -/

/-- C2 counterexample: normalization is not idempotent on every input.
On `"GITHUB.COM/Abc"` the substring check (line 70) is case-sensitive and
fails, so the first pass only lower-cases the value to
`"github.com/abc"`; a second pass then strips it to `"abc"`. -/
theorem normalizeHandle_not_idem_on_upper_marker :
    normalizeHandle (normalizeHandle (pstr "GITHUB.COM/Abc")) ≠
      normalizeHandle (pstr "GITHUB.COM/Abc") := by decide

/-- C2 (amended): normalization is idempotent on every input that either
already contains the `github.com/` marker or whose lower-casing does not
contain the marker, i.e. unless lower-casing introduces a new occurrence
of the marker. -/
theorem normalizeHandle_idem (s : PyStr)
    (h : hasSub ghMarker s = true ∨ hasSub ghMarker (lower s) = false) :
    normalizeHandle (normalizeHandle s) = normalizeHandle s := by
  by_cases hm : hasSub ghMarker s = true
  · have hnof : hasSub ghMarker (lower (basename s)) = false :=
      hasSub_ghMarker_eq_false (slash_not_mem_lower (slash_not_mem_basename s))
    rw [normalizeHandle_pos hm, normalizeHandle_neg hnof, lower_lower]
  · rcases h with h | h
    · exact absurd h hm
    · have hm2 : hasSub ghMarker s = false := by
        simpa using hm
      rw [normalizeHandle_neg hm2, normalizeHandle_neg h, lower_lower]

/-- Witness for the amended C2 at a concrete input. -/
theorem normalizeHandle_idem_witness :
    normalizeHandle (normalizeHandle (pstr "https://github.com/OctoCat")) =
      normalizeHandle (pstr "https://github.com/OctoCat") :=
  normalizeHandle_idem (pstr "https://github.com/OctoCat") (Or.inl (by decide))

/-- C6: normalizing `"https://github.com/OctoCat"` extracts the final path
segment and lower-cases it, yielding exactly `"octocat"`. -/
theorem normalizeHandle_octocat :
    normalizeHandle (pstr "https://github.com/OctoCat") = pstr "octocat" := by decide

/-- C9: URL-suffix extraction triggers whenever the raw handle contains
`github.com/` anywhere, replacing the handle by its final path segment
(then lower-cased); consequently any such handle ending in `/` normalizes
to the empty string. -/
theorem normalizeHandle_marker_anywhere :
    (∀ s : PyStr, hasSub ghMarker s = true → normalizeHandle s = lower (basename s)) ∧
    (∀ t : PyStr, hasSub ghMarker (t ++ ['/']) = true → normalizeHandle (t ++ ['/']) = []) := by
  constructor
  · intro s h
    exact normalizeHandle_pos h
  · intro t h
    rw [normalizeHandle_pos h]
    simp [basename, List.reverse_append, lower]

/-- Witness for C9: the marker occurring mid-string (not a full profile
URL) still triggers extraction, and a trailing slash yields the empty
normalized handle. -/
theorem normalizeHandle_marker_anywhere_witness :
    normalizeHandle (pstr "foo github.com/Bar") =
      lower (basename (pstr "foo github.com/Bar")) ∧
    normalizeHandle (pstr "https://github.com/octocat" ++ ['/']) = [] :=
  ⟨normalizeHandle_marker_anywhere.1 _ (by decide),
    normalizeHandle_marker_anywhere.2 _ (by decide)⟩

/-! Claim theorems about the per-record processing and the whole run. -/

/-- C5: a record whose raw identity field contains `@` is classified as a
likely email: the message is appended to the likely-email list, `errored`
is incremented, the exit signal is set, and the state is otherwise
unchanged — in particular no call is made to the registry or to the
verification collaborator. -/
theorem email_check_short_circuits (env : Env) (st : RunState) (p : Participant)
    (h : hasSub (pstr "@") p.githubId = true) :
    processOne env st p =
      { st with
        summary_error_likely_email := st.summary_error_likely_email ++ [msgLikelyEmail p]
        count_error := st.count_error + 1
        exitCode := 1 } := by
  simp [processOne, h]

/-- Witness for C5 on the email-shaped batch row. -/
theorem email_check_short_circuits_witness :
    hasSub (pstr "@") rowBob.githubId = true ∧
    processOne envBatch initState rowBob =
      { initState with
        summary_error_likely_email :=
          initState.summary_error_likely_email ++ [msgLikelyEmail rowBob]
        count_error := initState.count_error + 1
        exitCode := 1 } :=
  ⟨by decide, email_check_short_circuits envBatch initState rowBob (by decide)⟩

/-- C10: for a record whose note carries the `not a valid id` sentinel but
whose normalized handle the registry lookup reports as existing, only the
skip counter (and the lookup trace) change: `errored` is not incremented,
no message list grows, and the exit signal is untouched — the existence
check takes precedence over the flagged-invalid check. -/
theorem existence_check_precedes_flagged (env : Env) (st : RunState) (p : Participant)
    (hat : hasSub (pstr "@") p.githubId = false)
    (hnote : p.note = pstr "not a valid id")
    (hdet : env.detailStatus (normalizeHandle p.githubId) = 200) :
    processOne env st p =
      { st with
        count_skipped := st.count_skipped + 1
        detailCalls := st.detailCalls ++ [normalizeHandle p.githubId] } := by
  simp [processOne, hat, hdet]

/-- Witness for C10 on a flagged row whose handle is already registered. -/
theorem existence_check_precedes_flagged_witness :
    hasSub (pstr "@") rowFlagged.githubId = false ∧
    rowFlagged.note = pstr "not a valid id" ∧
    processOne envBatch initState rowFlagged =
      { initState with
        count_skipped := initState.count_skipped + 1
        detailCalls := initState.detailCalls ++ [normalizeHandle rowFlagged.githubId] } :=
  ⟨by decide, by decide,
    existence_check_precedes_flagged envBatch initState rowFlagged
      (by decide) (by decide) (by decide)⟩

/-- C7: a record that passed the email check, whose normalized handle the
registry reports as absent, that is not flagged invalid, and whose
normalized handle has length at most 3, is classified short-username:
message appended, `errored` incremented, exit signal set — and the
verification collaborator is not called (the trace of GitHub lookups is
unchanged). -/
theorem short_username_check (env : Env) (st : RunState) (p : Participant)
    (hat : hasSub (pstr "@") p.githubId = false)
    (hdet : env.detailStatus (normalizeHandle p.githubId) ≠ 200)
    (hnote : p.note ≠ pstr "not a valid id")
    (hlen : (normalizeHandle p.githubId).length ≤ 3) :
    processOne env st p =
      { st with
        summary_error_short_username := st.summary_error_short_username ++
          [msgShortUsername { p with githubId := normalizeHandle p.githubId }]
        count_error := st.count_error + 1
        exitCode := 1
        detailCalls := st.detailCalls ++ [normalizeHandle p.githubId] } := by
  simp [processOne, hat, hdet, hnote, hlen]

/-- Witness for C7 on the `n/a` placeholder row. -/
theorem short_username_check_witness :
    hasSub (pstr "@") rowShort.githubId = false ∧
    envBatch.detailStatus (normalizeHandle rowShort.githubId) ≠ 200 ∧
    rowShort.note ≠ pstr "not a valid id" ∧
    (normalizeHandle rowShort.githubId).length ≤ 3 ∧
    processOne envBatch initState rowShort =
      { initState with
        summary_error_short_username := initState.summary_error_short_username ++
          [msgShortUsername { rowShort with githubId := normalizeHandle rowShort.githubId }]
        count_error := initState.count_error + 1
        exitCode := 1
        detailCalls := initState.detailCalls ++ [normalizeHandle rowShort.githubId] } :=
  ⟨by decide, by decide, by decide, by decide,
    short_username_check envBatch initState rowShort
      (by decide) (by decide) (by decide) (by decide)⟩

/-- C1 counterexample: a run whose single record passes every validation
check but whose create call returns status 500 ends with `errored = 1`
and yet `exitCode = 0` — the create-failure branch (lines 120-123) does
not set the exit code. -/
theorem create_failure_leaves_exitCode_zero :
    envAddFails.addStatus sendDave = 500 ∧
    (reconcile envAddFails [rowOcto]).count_error = 1 ∧
    (reconcile envAddFails [rowOcto]).exitCode = 0 := by decide

/-- C1 (amended): processing a record sets the exit code to 1 exactly when
the record fails a validation check (email-shaped, flagged invalid, too
short, or unverified), and otherwise leaves it unchanged — so it is never
reset once set, but a failure of the final create step does not set it. -/
theorem exitCode_processOne (env : Env) (st : RunState) (p : Participant) :
    (processOne env st p).exitCode =
      if failsValidation env p then 1 else st.exitCode := by
  by_cases h1 : hasSub (pstr "@") p.githubId = true
  · simp [processOne, failsValidation, h1]
  · rw [Bool.not_eq_true] at h1
    by_cases h2 : env.detailStatus (normalizeHandle p.githubId) = 200
    · simp [processOne, failsValidation, h1, h2]
    · by_cases h3 : p.note = pstr "not a valid id"
      · simp [processOne, failsValidation, h1, h2, h3]
      · by_cases h4 : (normalizeHandle p.githubId).length ≤ 3
        · simp [processOne, failsValidation, h1, h2, h3, h4]
        · by_cases h5 : env.ghStatus (normalizeHandle p.githubId) = 200
          · simp [processOne, failsValidation, h1, h2, h3, h4, h5, apply_ite]
          · simp [processOne, failsValidation, h1, h2, h3, h4, h5, apply_ite]

/-- Processing one record increases the total of the three counters by
exactly one: every branch of the loop body increments exactly one of
`count_added`, `count_skipped`, `count_error`. -/
theorem sumCounts_processOne (env : Env) (st : RunState) (p : Participant) :
    sumCounts (processOne env st p) = sumCounts st + 1 := by
  by_cases h1 : hasSub (pstr "@") p.githubId = true
  · simp [processOne, sumCounts, h1]
    omega
  · rw [Bool.not_eq_true] at h1
    by_cases h2 : env.detailStatus (normalizeHandle p.githubId) = 200
    · simp [processOne, sumCounts, h1, h2]
      omega
    · by_cases h3 : p.note = pstr "not a valid id"
      · simp [processOne, sumCounts, h1, h2, h3]
        omega
      · by_cases h4 : (normalizeHandle p.githubId).length ≤ 3
        · simp [processOne, sumCounts, h1, h2, h3, h4]
          omega
        · by_cases h5 : env.ghStatus (normalizeHandle p.githubId) = 200
          · simp [processOne, sumCounts, h1, h2, h3, h4, h5, apply_ite]
            split <;> omega
          · simp [processOne, sumCounts, h1, h2, h3, h4, h5, apply_ite]
            omega

theorem sumCounts_foldl (env : Env) (rows : List Participant) :
    ∀ st : RunState, sumCounts (rows.foldl (processOne env) st) = sumCounts st + rows.length := by
  induction rows with
  | nil =>
    intro st
    simp
  | cons p t ih =>
    intro st
    simp only [List.foldl_cons, ih, sumCounts_processOne, List.length_cons]
    omega

/-- C3: in every run the three counters sum to at most the number of
records processed; each record increments exactly one counter by one, so
no record is double-counted and equality in fact always holds. -/
theorem counts_invariant (env : Env) (rows : List Participant) :
    (reconcile env rows).count_added + (reconcile env rows).count_skipped +
        (reconcile env rows).count_error ≤ rows.length ∧
    (reconcile env rows).count_added + (reconcile env rows).count_skipped +
        (reconcile env rows).count_error = rows.length := by
  have h := sumCounts_foldl env rows initState
  rw [show sumCounts initState = 0 from rfl] at h
  unfold sumCounts at h
  unfold reconcile
  constructor <;> omega

/-- Any create payload traced while processing one record either was
already in the trace or is for a handle the registry reported as absent. -/
theorem addCalls_step (env : Env) (st : RunState) (p : Participant) (s : Send)
    (h : s ∈ (processOne env st p).addCalls) :
    s ∈ st.addCalls ∨ env.detailStatus s.GithubName ≠ 200 := by
  by_cases h1 : hasSub (pstr "@") p.githubId = true
  · simp [processOne, h1] at h
    exact Or.inl h
  · rw [Bool.not_eq_true] at h1
    by_cases h2 : env.detailStatus (normalizeHandle p.githubId) = 200
    · simp [processOne, h1, h2] at h
      exact Or.inl h
    · by_cases h3 : p.note = pstr "not a valid id"
      · simp [processOne, h1, h2, h3] at h
        exact Or.inl h
      · by_cases h4 : (normalizeHandle p.githubId).length ≤ 3
        · simp [processOne, h1, h2, h3, h4] at h
          exact Or.inl h
        · by_cases h5 : env.ghStatus (normalizeHandle p.githubId) = 200
          · simp [processOne, h1, h2, h3, h4, h5, apply_ite] at h
            rcases h with h | h
            · exact Or.inl h
            · right
              rw [h]
              exact h2
          · simp [processOne, h1, h2, h3, h4, h5, apply_ite] at h
            exact Or.inl h

theorem addCalls_foldl (env : Env) (rows : List Participant) :
    ∀ (st : RunState) (s : Send), s ∈ (rows.foldl (processOne env) st).addCalls →
      s ∈ st.addCalls ∨ env.detailStatus s.GithubName ≠ 200 := by
  induction rows with
  | nil =>
    intro st s h
    exact Or.inl h
  | cons p t ih =>
    intro st s h
    rw [List.foldl_cons] at h
    rcases ih (processOne env st p) s h with h2 | h2
    · exact addCalls_step env st p s h2
    · exact Or.inr h2

/-- C4: a record whose registry lookup reports 200 is counted skipped and
issues no create call; globally, every create payload of a run is for a
handle the registry reported as absent, so re-running against a registry
that already holds every handle issues zero duplicate creations. -/
theorem skip_on_existing_and_no_duplicate_create :
    (∀ (env : Env) (st : RunState) (p : Participant),
      hasSub (pstr "@") p.githubId = false →
      env.detailStatus (normalizeHandle p.githubId) = 200 →
      (processOne env st p).count_skipped = st.count_skipped + 1 ∧
      (processOne env st p).addCalls = st.addCalls) ∧
    (∀ (env : Env) (rows : List Participant) (s : Send),
      s ∈ (reconcile env rows).addCalls → env.detailStatus s.GithubName ≠ 200) := by
  constructor
  · intro env st p hat hdet
    constructor <;> simp [processOne, hat, hdet]
  · intro env rows s h
    rcases addCalls_foldl env rows initState s h with h2 | h2
    · simp [initState] at h2
    · exact h2

/-- Witness for C4: the existing batch row is skipped without a create
call, and the one concrete create payload of the batch run is for a handle
the registry reported absent. -/
theorem skip_on_existing_witness :
    ((processOne envBatch initState rowAlice).count_skipped = initState.count_skipped + 1 ∧
      (processOne envBatch initState rowAlice).addCalls = initState.addCalls) ∧
    envBatch.detailStatus sendDave.GithubName ≠ 200 :=
  ⟨skip_on_existing_and_no_duplicate_create.1 envBatch initState rowAlice
      (by decide) (by decide),
    skip_on_existing_and_no_duplicate_create.2 envBatch rowsBatch sendDave (by decide)⟩

/-- C8: on the five-record batch (one existing, one email-shaped, one
failing verification, two created with status 201) the final summary is
added = 2, skipped = 1, errored = 2, and the exit code is the failure
value 1. -/
theorem batch_summary :
    (reconcile envBatch rowsBatch).count_added = 2 ∧
    (reconcile envBatch rowsBatch).count_skipped = 1 ∧
    (reconcile envBatch rowsBatch).count_error = 2 ∧
    (reconcile envBatch rowsBatch).exitCode = 1 := by decide

end AddParticipants
